import Mathlib

/-!
Shallow embedding of the "done" webhook-queue delivery pipeline.

Timestamps are modelled as natural numbers of milliseconds since the epoch
(the source manipulates JavaScript `Date` objects through `getTime()`).
The calendar-day formatting `Dates.getDateOnly` (which renders `YYYY-MM-DD`)
is abstracted as the UTC day index: two instants render to the same
`YYYY-MM-DD` string exactly when they have the same day index.
Header maps (JavaScript plain objects used as string records) are modelled
as functions `String → Option String`; the object-literal spread
`{...headers, k: v}` corresponds to overriding the function at `k`.
-/

namespace Done

/-- Milliseconds since epoch, the value of `Date.getTime()`. -/
abbrev Timestamp := Nat

/-- Milliseconds per day, used to abstract calendar-day formatting. -/
def msPerDay : Nat := 86400000

/-- Abstraction of `Dates.getDateOnly` (src/utils/dates.ts): the source
formats a date as `YYYY-MM-DD`; two timestamps format equally iff they lie
in the same UTC calendar day, i.e. have the same day index. -/
def getDateOnly (t : Timestamp) : Nat := t / msPerDay

/-- A JavaScript string-record header map (e.g. `payload.headers.forward`). -/
abbrev HeaderMap := String → Option String

/-- The `MESSAGE_STATUS` enum from the message model. -/
inductive MESSAGE_STATUS
  | CREATED
  | QUEUED
  | DELIVER
  | SENT
  | RETRY
  | DLQ
  | ARCHIVED
deriving DecidableEq, Repr

/-- String value of a `MESSAGE_STATUS` member (the TS enum is string-valued). -/
def statusToString : MESSAGE_STATUS → String
  | .CREATED => "CREATED"
  | .QUEUED => "QUEUED"
  | .DELIVER => "DELIVER"
  | .SENT => "SENT"
  | .RETRY => "RETRY"
  | .DLQ => "DLQ"
  | .ARCHIVED => "ARCHIVED"

/-- The `MessageLastError` from the message model: one failed-delivery record. -/
structure MessageLastError where
  url : String
  status : Option Nat
  message : String
  createdAt : Timestamp
deriving DecidableEq, Repr

/-- The `payload.headers` of a message: forwarded headers and command headers. -/
structure MessagePayloadHeaders where
  forward : HeaderMap
  command : HeaderMap

/-- The `MessagePayload`: callback url, headers, and the (opaque) JSON body.
`data` is kept opaque as its serialized form; `none` models an absent body. -/
structure MessagePayload where
  headers : MessagePayloadHeaders
  url : String
  data : Option String

/-- The `MessageModel`: the persisted message entity (camelCase KV model). -/
structure MessageModel where
  id : String
  payload : MessagePayload
  publishAt : Timestamp
  deliveredAt : Option Timestamp := none
  retryAt : Option Timestamp := none
  retried : Option Nat := none
  status : MESSAGE_STATUS
  lastErrors : Option (List MessageLastError) := none
  createdAt : Timestamp
  updatedAt : Timestamp

/-- The `MessageReceivedData`: the ingress payload of a `MESSAGE_RECEIVED` event. -/
structure MessageReceivedData where
  id : String
  publishAt : Timestamp
  payload : MessagePayload

/-- The `MessagesStore.createFromReceivedData` composed with `Store._create`:
a new message starts in `CREATED` with `retried: 0` and fresh
`createdAt`/`updatedAt` stamps (src/stores/messages-store.ts). -/
def createFromReceivedData (d : MessageReceivedData) (now : Timestamp) : MessageModel :=
  { id := d.id
    payload := d.payload
    publishAt := d.publishAt
    retried := some 0
    status := .CREATED
    createdAt := now
    updatedAt := now }

/-- Number of entries in `lastErrors` (an absent array counts as empty,
mirroring `if (!model.lastErrors) model.lastErrors = []`). -/
def errsLen (m : MessageModel) : Nat := (m.lastErrors.getD []).length

/-- The `Http.buildDefaultCallbackHeaders` (src/utils/http.ts lines 97-105):
`{...headers, 'Done-Message-Id': id, 'Done-Status': status,
'Done-Retried': retried.toString(), 'User-Agent': 'Done Light'}`.
The object literal places the four system entries after the spread, so as a
key-value map the result answers the four system keys with the system values
and every other key from `headers`. -/
def buildDefaultCallbackHeaders (headers : HeaderMap)
    (messageId : String) (retried : Nat) (status : String) : HeaderMap :=
  fun k =>
    if k = "Done-Message-Id" then some messageId
    else if k = "Done-Status" then some status
    else if k = "Done-Retried" then some (toString retried)
    else if k = "User-Agent" then some "Done Light"
    else headers k

/-- Abstraction of JavaScript `Number(s)` for the delay prefix: `none` models
`NaN`; `Number("") = 0`; decimals are not needed by the delay grammar. -/
def jsNumber (s : String) : Option Int :=
  if s = "" then some 0 else s.toInt?

/-- The `Http.delayHandleRelative` (src/utils/http.ts lines 45-75), returning the
resulting `delayDate`. The switch adds the parsed amount in the given unit to
a copy of `nowDate`; on any other final character the default branch leaves
the copy untouched, so `delayDate = nowDate`. A `none` result models the
`Invalid Date` produced when the numeric prefix is `NaN`. -/
def delayHandleRelativeDate (delay : String) (nowDate : Timestamp) : Option Int :=
  let number := jsNumber (delay.dropRight 1)
  let unit := delay.takeRight 1
  if unit = "s" then number.map (fun n => (nowDate : Int) + n * 1000)
  else if unit = "m" then number.map (fun n => (nowDate : Int) + n * 60000)
  else if unit = "h" then number.map (fun n => (nowDate : Int) + n * 3600000)
  else if unit = "d" then number.map (fun n => (nowDate : Int) + n * 86400000)
  else some (nowDate : Int)

/-- The `RETRY_DELAY_MINUTES` constant of the state manager. -/
def RETRY_DELAY_MINUTES : Nat := 1

/-- The `MessageStateManager.stateCreated` (message-state-manager.ts lines 51-67):
the status update written for a `CREATED` message, if any.
`publishAt.getTime() < today.getTime()` sends now; otherwise a matching
calendar day queues for later; otherwise nothing is written. -/
def stateCreated (model : MessageModel) (now : Timestamp) : Option MESSAGE_STATUS :=
  if model.publishAt < now then some .DELIVER
  else if getDateOnly now = getDateOnly model.publishAt then some .QUEUED
  else none

/-- Effect on the stored model of `update(id, { status })` when `stateCreated`
chose an update (store merge plus fresh `updatedAt`). -/
def applyStatusUpdate (m : MessageModel) (upd : Option MESSAGE_STATUS)
    (now : Timestamp) : MessageModel :=
  match upd with
  | some s => { m with status := s, updatedAt := now }
  | none => m

/-- The `MessageStateManager.stateQueued` (lines 69-82): the `delay` option passed
to `kv.enqueue` for the `MESSAGE_QUEUED` event,
`model.publishAt.getTime() - today.getTime()`. -/
def stateQueuedDelay (model : MessageModel) (now : Timestamp) : Int :=
  (model.publishAt : Int) - (now : Int)

/-- The `MessageStateManager.stateRetry` (lines 84-98): the `delay` option passed
to `kv.enqueue` for the `MESSAGE_RETRY` event,
`model.retryAt ? model.retryAt.getTime() - new Date().getTime() : 0`. -/
def stateRetryDelay (model : MessageModel) (now : Timestamp) : Int :=
  match model.retryAt with
  | some retryAt => (retryAt : Int) - (now : Int)
  | none => 0

/-- Outcome of the outbound `fetch` in `stateDeliver`: an HTTP response with a
status code, or a thrown error (network failure, timeout, DNS failure). -/
inductive DeliveryOutcome
  | response (status : Nat)
  | thrown (message : String)
deriving DecidableEq, Repr

/-- The `response.status === 200 || response.status === 201`. -/
def isSuccessStatus (s : Nat) : Bool := s == 200 || s == 201

/-- An outcome the delivery code treats as a failure. -/
def isFailure : DeliveryOutcome → Bool
  | .response s => !isSuccessStatus s
  | .thrown _ => true

/-- The record pushed onto `lastErrors` for a failed attempt
(message-state-manager.ts lines 131-136): `status` is the response status for
a non-success response (`'invalid response status'`), absent for a thrown
error whose message is recorded instead. -/
def deliveryErrorRecord (model : MessageModel) (outcome : DeliveryOutcome)
    (now : Timestamp) : MessageLastError :=
  match outcome with
  | .response s =>
      { url := model.payload.url, status := some s
        message := "invalid response status", createdAt := now }
  | .thrown msg =>
      { url := model.payload.url, status := none
        message := msg, createdAt := now }

/-- Failure tail of `stateDeliver` (lines 127-153): append the error record,
then retry while `model.retried !== undefined && model.retried < 3`
(incrementing `retried` and stamping `retryAt = now + RETRY_DELAY`), else
transition to `DLQ`. -/
def stateDeliverFailure (model : MessageModel) (e : MessageLastError)
    (now : Timestamp) : MessageModel :=
  let errs := model.lastErrors.getD [] ++ [e]
  match model.retried with
  | some r =>
      if r < 3 then
        { model with
          lastErrors := some errs
          retried := some (r + 1)
          retryAt := some (now + 1000 * 60 * RETRY_DELAY_MINUTES)
          status := .RETRY
          updatedAt := now }
      else
        { model with lastErrors := some errs, status := .DLQ, updatedAt := now }
  | none =>
      { model with lastErrors := some errs, status := .DLQ, updatedAt := now }

/-- The `MessageStateManager.stateDeliver` (lines 100-154) as the resulting stored
model: HTTP 200/201 update `{ deliveredAt: new Date(), status: SENT }`; any
other response status or thrown error goes through the failure tail. -/
def stateDeliver (model : MessageModel) (outcome : DeliveryOutcome)
    (now : Timestamp) : MessageModel :=
  match outcome with
  | .response s =>
      if isSuccessStatus s then
        { model with deliveredAt := some now, status := .SENT, updatedAt := now }
      else
        stateDeliverFailure model (deliveryErrorRecord model outcome now) now
  | .thrown _ =>
      stateDeliverFailure model (deliveryErrorRecord model outcome now) now

/-- Effect of `handleState` on consuming a `MESSAGE_QUEUED` or `MESSAGE_RETRY`
event: `update(model.id, { status: DELIVER })` (lines 20-23). -/
def markDeliver (m : MessageModel) (now : Timestamp) : MessageModel :=
  { m with status := .DELIVER, updatedAt := now }

/-- An outbound HTTP POST issued by the manager (delivery or failure
callback). -/
structure CallbackRequest where
  url : String
  headers : HeaderMap
  body : Option String

/-- The delivery POST built in `stateDeliver` (lines 107-114). -/
def deliverRequest (model : MessageModel) : CallbackRequest :=
  { url := model.payload.url
    headers := buildDefaultCallbackHeaders model.payload.headers.forward
      model.id (model.retried.getD 0) (statusToString model.status)
    body := model.payload.data }

/-- The `MessageStateManager.stateDLQ` (lines 160-187): if the
`failure-callback` command header is present, the single POST issued to it
(same body, forward headers plus the system headers); otherwise nothing.
The handler performs no store write, and a failed callback only logs. -/
def stateDLQ (model : MessageModel) : Option CallbackRequest :=
  match model.payload.headers.command "failure-callback" with
  | none => none
  | some cb =>
      some
        { url := cb
          headers := buildDefaultCallbackHeaders model.payload.headers.forward
            model.id (model.retried.getD 0) (statusToString model.status)
          body := model.payload.data }

/-- The list of failure-callback POSTs `stateDLQ` performs (zero or one). -/
def stateDLQRequests (model : MessageModel) : List CallbackRequest :=
  (stateDLQ model).toList

/-- One step of the per-message state machine driven by
`MessageStateManager.handleState`: a `CREATED` message is visited (store
create-event replay or daily activator); a queued `MESSAGE_QUEUED` /
`MESSAGE_RETRY` event fires and marks the message `DELIVER`; a `DELIVER`
message undergoes one delivery attempt; `stateSent` and `stateDLQ` perform no
store write. -/
inductive MessageStep : MessageModel → MessageModel → Prop
  | createdVisit (m : MessageModel) (now : Timestamp)
      (h : m.status = MESSAGE_STATUS.CREATED) :
      MessageStep m (applyStatusUpdate m (stateCreated m now) now)
  | queuedFire (m : MessageModel) (now : Timestamp)
      (h : m.status = MESSAGE_STATUS.QUEUED) :
      MessageStep m (markDeliver m now)
  | retryFire (m : MessageModel) (now : Timestamp)
      (h : m.status = MESSAGE_STATUS.RETRY) :
      MessageStep m (markDeliver m now)
  | deliverAttempt (m : MessageModel) (outcome : DeliveryOutcome) (now : Timestamp)
      (h : m.status = MESSAGE_STATUS.DELIVER) :
      MessageStep m (stateDeliver m outcome now)
  | sentVisit (m : MessageModel) (h : m.status = MESSAGE_STATUS.SENT) :
      MessageStep m m
  | dlqVisit (m : MessageModel) (h : m.status = MESSAGE_STATUS.DLQ) :
      MessageStep m m

/-- The states a message ever reaches: creation by the state manager on
`MESSAGE_RECEIVED`, followed by machine steps. -/
inductive Reachable : MessageModel → Prop
  | create (d : MessageReceivedData) (now : Timestamp) :
      Reachable (createFromReceivedData d now)
  | step {m m' : MessageModel} : Reachable m → MessageStep m m' → Reachable m'

/-- The inductive state invariant: `retried` is always populated and at most
3, `lastErrors` has at least `retried` entries, a `DLQ` message has
`retried = 3` and at least 4 recorded errors, and `deliveredAt` is populated
exactly in status `SENT`. -/
def StateInv (m : MessageModel) : Prop :=
  ∃ r, m.retried = some r ∧ r ≤ 3 ∧ r ≤ errsLen m ∧
    (m.status = MESSAGE_STATUS.DLQ → r = 3 ∧ 4 ≤ errsLen m) ∧
    (m.deliveredAt.isSome ↔ m.status = MESSAGE_STATUS.SENT)

lemma stateInv_create (d : MessageReceivedData) (now : Timestamp) :
    StateInv (createFromReceivedData d now) := by
  refine ⟨0, rfl, by omega, by simp [createFromReceivedData, errsLen], ?_, ?_⟩ <;>
    simp [createFromReceivedData, errsLen]

lemma stateCreated_cases (m : MessageModel) (now : Timestamp) :
    stateCreated m now = none ∨ stateCreated m now = some MESSAGE_STATUS.DELIVER ∨
      stateCreated m now = some MESSAGE_STATUS.QUEUED := by
  unfold stateCreated
  by_cases h1 : m.publishAt < now
  · simp [h1]
  · by_cases h2 : getDateOnly now = getDateOnly m.publishAt <;> simp [h1, h2]

lemma errsLen_append (m : MessageModel) (e : MessageLastError) :
    (({ m with lastErrors := some (m.lastErrors.getD [] ++ [e]) } :
        MessageModel).lastErrors.getD []).length = errsLen m + 1 := by
  simp [errsLen]

lemma stateInv_failure {m : MessageModel} {r : Nat} {e : MessageLastError}
    {now : Timestamp}
    (hr : m.retried = some r) (hr3 : r ≤ 3) (hlen : r ≤ errsLen m)
    (hdelNone : m.deliveredAt = none) :
    StateInv (stateDeliverFailure m e now) := by
  have hlen' : r ≤ (m.lastErrors.getD []).length := hlen
  unfold stateDeliverFailure
  rw [hr]
  by_cases hlt : r < 3
  · simp only [hlt, if_true]
    refine ⟨r + 1, by simp, by omega, ?_, ?_, ?_⟩
    · simp only [errsLen]
      simp
      omega
    · intro hs
      simp at hs
    · simp [hdelNone]
  · simp only [hlt, if_false]
    refine ⟨r, by simp [hr], hr3, ?_, ?_, ?_⟩
    · simp only [errsLen]
      simp
      omega
    · intro _
      refine ⟨by omega, ?_⟩
      simp only [errsLen]
      simp
      omega
    · simp [hdelNone]

lemma stateInv_step {m m' : MessageModel} (inv : StateInv m)
    (st : MessageStep m m') : StateInv m' := by
  obtain ⟨r, hr, hr3, hlen, hdlq, hdel⟩ := inv
  have hlen' : r ≤ (m.lastErrors.getD []).length := hlen
  cases st with
  | createdVisit now h =>
      have hdelNone : m.deliveredAt = none := by
        cases hm : m.deliveredAt with
        | none => rfl
        | some v => simp [hm, h] at hdel
      rcases stateCreated_cases m now with h1 | h1 | h1
      · simp only [applyStatusUpdate, h1]
        exact ⟨r, hr, hr3, hlen, hdlq, hdel⟩
      · simp only [applyStatusUpdate, h1]
        refine ⟨r, by simp [hr], hr3, ?_, ?_, ?_⟩
        · simpa [errsLen] using hlen'
        · intro hs
          simp at hs
        · simp [hdelNone]
      · simp only [applyStatusUpdate, h1]
        refine ⟨r, by simp [hr], hr3, ?_, ?_, ?_⟩
        · simpa [errsLen] using hlen'
        · intro hs
          simp at hs
        · simp [hdelNone]
  | queuedFire now h =>
      have hdelNone : m.deliveredAt = none := by
        cases hm : m.deliveredAt with
        | none => rfl
        | some v => simp [hm, h] at hdel
      refine ⟨r, by simp [markDeliver, hr], hr3, ?_, ?_, ?_⟩
      · simpa [markDeliver, errsLen] using hlen'
      · intro hs
        simp [markDeliver] at hs
      · simp [markDeliver, hdelNone]
  | retryFire now h =>
      have hdelNone : m.deliveredAt = none := by
        cases hm : m.deliveredAt with
        | none => rfl
        | some v => simp [hm, h] at hdel
      refine ⟨r, by simp [markDeliver, hr], hr3, ?_, ?_, ?_⟩
      · simpa [markDeliver, errsLen] using hlen'
      · intro hs
        simp [markDeliver] at hs
      · simp [markDeliver, hdelNone]
  | deliverAttempt outcome now h =>
      have hdelNone : m.deliveredAt = none := by
        cases hm : m.deliveredAt with
        | none => rfl
        | some v => simp [hm, h] at hdel
      cases outcome with
      | response s =>
          by_cases hs : isSuccessStatus s = true
          · simp only [stateDeliver, hs, if_true]
            refine ⟨r, by simp [hr], hr3, ?_, ?_, ?_⟩
            · simpa [errsLen] using hlen'
            · intro hdlq'
              simp at hdlq'
            · simp
          · have hs' : isSuccessStatus s = false := by simpa using hs
            simp only [stateDeliver, hs', Bool.false_eq_true, if_false]
            exact stateInv_failure hr hr3 hlen hdelNone
      | thrown msg =>
          simp only [stateDeliver]
          exact stateInv_failure hr hr3 hlen hdelNone
  | sentVisit h => exact ⟨r, hr, hr3, hlen, hdlq, hdel⟩
  | dlqVisit h => exact ⟨r, hr, hr3, hlen, hdlq, hdel⟩

/-- Every reachable message state satisfies the invariant. -/
lemma reachable_stateInv {m : MessageModel} (h : Reachable m) : StateInv m := by
  induction h with
  | create d now => exact stateInv_create d now
  | step _ st ih => exact stateInv_step ih st

/-! ### Key-value message store (KvStore / KvMessagesStore) -/

/-- The primary rows of the KV messages store: id-keyed models, the view of
the `['stores', 'messages', <id>]` keys. -/
abbrev KvMessages := List (String × MessageModel)

/-- The `KvStore._fetch`: read the primary key for `id`. -/
def kvFetch (store : KvMessages) (id : String) : Option MessageModel :=
  (store.find? (fun p => p.1 == id)).map (·.2)

/-- The `kv.set` on a primary key: overwrite the entry when present, insert it
otherwise. -/
def kvSet (store : KvMessages) (id : String) (m : MessageModel) : KvMessages :=
  if store.any (fun p => p.1 == id) then
    store.map (fun p => if p.1 == id then (id, m) else p)
  else
    (id, m) :: store

/-- A `Partial<MessageData>` patch: a field is `some v` when the property is
present (as a truthy value), `none` when absent. -/
structure MessagePatch where
  payload : Option MessagePayload := none
  publishAt : Option Timestamp := none
  deliveredAt : Option Timestamp := none
  retryAt : Option Timestamp := none
  retried : Option Nat := none
  status : Option MESSAGE_STATUS := none
  lastErrors : Option (List MessageLastError) := none

/-- The merged model written by `KvStore._update` (kv-store, lines 195-218):
`{ ...before, ...data, updated_at: new Date() }` — every field present in the
patch overrides, every absent field keeps its prior value, and `updated_at`
is stamped fresh. -/
def mergePatch (before : MessageModel) (p : MessagePatch)
    (now : Timestamp) : MessageModel :=
  { id := before.id
    payload := p.payload.getD before.payload
    publishAt := p.publishAt.getD before.publishAt
    deliveredAt := match p.deliveredAt with
      | some d => some d
      | none => before.deliveredAt
    retryAt := match p.retryAt with
      | some d => some d
      | none => before.retryAt
    retried := match p.retried with
      | some n => some n
      | none => before.retried
    status := p.status.getD before.status
    lastErrors := match p.lastErrors with
      | some l => some l
      | none => before.lastErrors
    createdAt := before.createdAt
    updatedAt := now }

/-- The per-status counters maintained by `StatsService`
(`['stats', 'messages', 'status', <status>]`). -/
abbrev StatusStats := MESSAGE_STATUS → Nat

/-- The `StatsService.incrementStatus` restricted to the status bucket. -/
def incrementStatus (stats : StatusStats) (s : MESSAGE_STATUS) : StatusStats :=
  fun t => if t = s then stats t + 1 else stats t

/-- The `StatsService.decrementStatus` restricted to the status bucket;
`Math.max(0, value - 1)` is truncated subtraction. -/
def decrementStatus (stats : StatusStats) (s : MESSAGE_STATUS) : StatusStats :=
  fun t => if t = s then stats t - 1 else stats t

/-- Result of `KvMessagesStore.update`: the possibly-changed rows and stats,
and the updated model (`none` models the `err('Message not found')` return). -/
structure KvUpdateResult where
  store : KvMessages
  stats : StatusStats
  result : Option MessageModel

/-- The `KvMessagesStore.update` (kv-messages-store, lines 88-113) over
`KvStore._update`: fetch the current model (unknown id returns the error with
no mutation), write the merged model, and when the patch carries a status
different from the current one, decrement the old status bucket and increment
the new one. -/
def kvMessagesUpdate (store : KvMessages) (stats : StatusStats) (id : String)
    (p : MessagePatch) (now : Timestamp) : KvUpdateResult :=
  match kvFetch store id with
  | none => { store := store, stats := stats, result := none }
  | some current =>
      let after := mergePatch current p now
      let stats' :=
        match p.status with
        | some s =>
            if s ≠ current.status then
              incrementStatus (decrementStatus stats current.status) s
            else stats
        | none => stats
      { store := kvSet store id after, stats := stats', result := some after }

/-! ### Sorted fetches (KV `fetchMany`, Turso SQL queries) -/

/-- Descending comparison on `updatedAt` used by `sortByUpdatedAt`
(`(a, b) => b.updated_at.getTime() - a.updated_at.getTime()`). -/
def updatedDescRel (a b : MessageModel) : Prop := b.updatedAt ≤ a.updatedAt

instance : DecidableRel updatedDescRel :=
  fun a b => Nat.decLe b.updatedAt a.updatedAt

instance : IsTotal MessageModel updatedDescRel :=
  ⟨fun a b => Nat.le_total b.updatedAt a.updatedAt⟩

instance : IsTrans MessageModel updatedDescRel :=
  ⟨fun _ _ _ h1 h2 => Nat.le_trans h2 h1⟩

/-- The `KvStore.sortByUpdatedAt` with the default `desc` direction: the models
sorted by `updated_at` descending. -/
def sortByUpdatedAt (models : List MessageModel) : List MessageModel :=
  List.insertionSort updatedDescRel models

/-- The `KvStore.fetchMany`: fetch each id, drop the missing ones, and return the
result of `sortByUpdatedAt`. -/
def fetchMany (store : KvMessages) (ids : List String) : List MessageModel :=
  sortByUpdatedAt (ids.filterMap (kvFetch store))

/-- The `KvMessagesStore.fetchByStatus`: read the `BY_STATUS` secondary (the id
list passed in) and return `fetchMany` over it. -/
def kvFetchByStatus (store : KvMessages) (byStatusIds : List String) :
    List MessageModel :=
  fetchMany store byStatusIds

/-- The `KvMessagesStore.fetchByDate`: read the `BY_PUBLISH_DATE` secondary (the
id list passed in) and return `fetchMany` over it. -/
def kvFetchByDate (store : KvMessages) (byDateIds : List String) :
    List MessageModel :=
  fetchMany store byDateIds

/-- A row of the Turso `messages` table, with nullable columns as options
(snake_case model; `last_errors` is kept in parsed form, `NULL ↔ none`). -/
structure TursoMessageRow where
  id : String
  payload : MessagePayload
  publish_at : Timestamp
  delivered_at : Option Timestamp
  retry_at : Option Timestamp
  retried : Nat
  status : String
  last_errors : Option (List MessageLastError)
  created_at : Timestamp
  updated_at : Timestamp

/-- Descending comparison on `created_at` (SQL `ORDER BY created_at DESC`). -/
def createdDescRel (a b : TursoMessageRow) : Prop := b.created_at ≤ a.created_at

instance : DecidableRel createdDescRel :=
  fun a b => Nat.decLe b.created_at a.created_at

instance : IsTotal TursoMessageRow createdDescRel :=
  ⟨fun a b => Nat.le_total b.created_at a.created_at⟩

instance : IsTrans TursoMessageRow createdDescRel :=
  ⟨fun _ _ _ h1 h2 => Nat.le_trans h2 h1⟩

/-- Ascending comparison on `publish_at` (SQL `ORDER BY publish_at ASC`). -/
def publishAscRel (a b : TursoMessageRow) : Prop := a.publish_at ≤ b.publish_at

instance : DecidableRel publishAscRel :=
  fun a b => Nat.decLe a.publish_at b.publish_at

instance : IsTotal TursoMessageRow publishAscRel :=
  ⟨fun a b => Nat.le_total a.publish_at b.publish_at⟩

instance : IsTrans TursoMessageRow publishAscRel :=
  ⟨fun _ _ _ h1 h2 => Nat.le_trans h1 h2⟩

/-- The `TursoMessagesStore.fetchByStatus`:
`SELECT * FROM messages WHERE status = :status ORDER BY created_at DESC`. -/
def tursoFetchByStatus (db : List TursoMessageRow) (status : String) :
    List TursoMessageRow :=
  List.insertionSort createdDescRel (db.filter (fun m => m.status == status))

/-- The `TursoMessagesStore.fetchByDate`:
`SELECT * FROM messages WHERE date(publish_at) = date(:date)
ORDER BY publish_at ASC`; `date(...)` on the stored UTC ISO string matches
exactly when both instants fall in the same UTC calendar day. -/
def tursoFetchByDate (db : List TursoMessageRow) (date : Timestamp) :
    List TursoMessageRow :=
  List.insertionSort publishAscRel
    (db.filter (fun m => getDateOnly m.publish_at == getDateOnly date))

/-- Ordered by `created_at` descending, as the store contract states it. -/
def sortedByCreatedAtDesc (l : List TursoMessageRow) : Prop :=
  l.Pairwise createdDescRel

/-- Ordered by `publish_at` ascending, as the store contract states it. -/
def sortedByPublishAtAsc (l : List TursoMessageRow) : Prop :=
  l.Pairwise publishAscRel

/-- Ordered by `created_at` descending, for the KV model shape. -/
def kvSortedByCreatedAtDesc (l : List MessageModel) : Prop :=
  l.Pairwise (fun a b => b.createdAt ≤ a.createdAt)

/-! ### Turso update (dynamic SET clause) -/

/-- The patch accepted by `TursoMessagesStore.update`
(`Partial<MessageData & { updated_at?: Date }>`): `some v` when the property
is present with a non-null value. A present `status` may be the empty string
(falsy in JavaScript); `Date` values, objects and arrays are truthy whenever
present, and `null`/`undefined` behave exactly like an absent property in
every `if (data.field)` guard, so both are `none`. -/
structure TursoPatch where
  payload : Option MessagePayload := none
  publish_at : Option Timestamp := none
  delivered_at : Option Timestamp := none
  retry_at : Option Timestamp := none
  retried : Option Nat := none
  status : Option String := none
  last_errors : Option (List MessageLastError) := none
  updated_at : Option Timestamp := none

/-- Effect on a row of the dynamic `SET` clause built by
`TursoMessagesStore.update` (turso-messages-store, lines 170-210): a column
is assigned only when its guard passes — `if (data.payload)`,
`if (data.publish_at)`, `if (data.delivered_at)`, `if (data.retry_at)`,
`typeof data.retried === 'number'`, `if (data.status)` (so the falsy empty
string is skipped), `if (data.last_errors)` (arrays are truthy, even empty)
— and `updated_at = (data.updated_at || new Date())`. -/
def tursoApplyPatch (row : TursoMessageRow) (p : TursoPatch)
    (now : Timestamp) : TursoMessageRow :=
  { id := row.id
    payload := p.payload.getD row.payload
    publish_at := p.publish_at.getD row.publish_at
    delivered_at := match p.delivered_at with
      | some d => some d
      | none => row.delivered_at
    retry_at := match p.retry_at with
      | some d => some d
      | none => row.retry_at
    retried := p.retried.getD row.retried
    status := match p.status with
      | some s => if s ≠ "" then s else row.status
      | none => row.status
    last_errors := match p.last_errors with
      | some l => some l
      | none => row.last_errors
    created_at := row.created_at
    updated_at := p.updated_at.getD now }

/-! ### Concrete fixtures -/

/-- An empty JavaScript record. -/
def emptyHeaders : HeaderMap := fun _ => none

/-- Command headers carrying a `Done-Failure-Callback` ingress header. -/
def commandWithFailureCallback : HeaderMap :=
  fun k => if k = "failure-callback" then some "https://fallback.example/f" else none

/-- A payload with no special headers and no body. -/
def payloadPlain : MessagePayload :=
  { headers := { forward := emptyHeaders, command := emptyHeaders }
    url := "https://target.example/hook"
    data := none }

/-- The payload of the retry-to-DLQ run: a body and a failure callback. -/
def payload0 : MessagePayload :=
  { headers := { forward := emptyHeaders, command := commandWithFailureCallback }
    url := "https://target.example/hook"
    data := some "payload-body" }

/-- Ingress data of the retry-to-DLQ run. -/
def msgData0 : MessageReceivedData :=
  { id := "msg_1", publishAt := 0, payload := payload0 }

/-- The retry-to-DLQ run: created at 0, promoted to `DELIVER`, then four
delivery attempts all answered with HTTP 500, interleaved with the
`MESSAGE_RETRY` events marking the message back to `DELIVER`. -/
def c4s0 : MessageModel := createFromReceivedData msgData0 0

def c4s1 : MessageModel := applyStatusUpdate c4s0 (stateCreated c4s0 1) 1

def c4s2 : MessageModel := stateDeliver c4s1 (.response 500) 2

def c4s3 : MessageModel := markDeliver c4s2 3

def c4s4 : MessageModel := stateDeliver c4s3 (.response 500) 4

def c4s5 : MessageModel := markDeliver c4s4 5

def c4s6 : MessageModel := stateDeliver c4s5 (.response 500) 6

def c4s7 : MessageModel := markDeliver c4s6 7

/-- Final state of the retry-to-DLQ run. -/
def c4final : MessageModel := stateDeliver c4s7 (.response 500) 8

lemma c4final_reachable : Reachable c4final :=
  ((((((((Reachable.create msgData0 0).step
    (MessageStep.createdVisit c4s0 1 rfl)).step
    (MessageStep.deliverAttempt c4s1 (.response 500) 2 rfl)).step
    (MessageStep.retryFire c4s2 3 rfl)).step
    (MessageStep.deliverAttempt c4s3 (.response 500) 4 rfl)).step
    (MessageStep.retryFire c4s4 5 rfl)).step
    (MessageStep.deliverAttempt c4s5 (.response 500) 6 rfl)).step
    (MessageStep.retryFire c4s6 7 rfl)).step
    (MessageStep.deliverAttempt c4s7 (.response 500) 8 rfl)

/-! ### Helper lemmas about delivery -/

lemma isSuccessStatus_iff (s : Nat) :
    isSuccessStatus s = true ↔ (s = 200 ∨ s = 201) := by
  simp [isSuccessStatus]

lemma stateDeliver_failure_eq (m : MessageModel) (outcome : DeliveryOutcome)
    (now : Timestamp) (hf : isFailure outcome = true) :
    stateDeliver m outcome now =
      stateDeliverFailure m (deliveryErrorRecord m outcome now) now := by
  cases outcome with
  | response s =>
      have hs : isSuccessStatus s = false := by
        simpa [isFailure] using hf
      simp [stateDeliver, hs]
  | thrown msg => rfl

lemma stateDeliverFailure_status (m : MessageModel) (e : MessageLastError)
    (now : Timestamp) :
    (stateDeliverFailure m e now).status = MESSAGE_STATUS.RETRY ∨
      (stateDeliverFailure m e now).status = MESSAGE_STATUS.DLQ := by
  unfold stateDeliverFailure
  cases m.retried with
  | none => simp
  | some r => by_cases h : r < 3 <;> simp [h]

lemma stateDeliverFailure_lastErrors (m : MessageModel) (e : MessageLastError)
    (now : Timestamp) :
    (stateDeliverFailure m e now).lastErrors = some (m.lastErrors.getD [] ++ [e]) := by
  unfold stateDeliverFailure
  cases m.retried with
  | none => simp
  | some r => by_cases h : r < 3 <;> simp [h]

lemma stateDeliverFailure_deliveredAt (m : MessageModel) (e : MessageLastError)
    (now : Timestamp) :
    (stateDeliverFailure m e now).deliveredAt = m.deliveredAt := by
  unfold stateDeliverFailure
  cases m.retried with
  | none => simp
  | some r => by_cases h : r < 3 <;> simp [h]

/-! ### Claims -/

/-- Claim C1: for every message ever created, `retried` is at most 3; on a
failed delivery attempt in status `DELIVER`, if `retried < 3` the message
transitions to `RETRY` with `retried` incremented by 1, and if `retried` has
reached 3 it transitions to `DLQ` (never to `RETRY`); in status `DLQ`,
`retried = 3` and `lastErrors` has at least 3 entries. -/
theorem done_C1_retried_bounded :
    (∀ m : MessageModel, Reachable m → ∃ r, m.retried = some r ∧ r ≤ 3) ∧
    (∀ (m : MessageModel) (outcome : DeliveryOutcome) (now : Timestamp) (r : Nat),
      m.status = MESSAGE_STATUS.DELIVER → m.retried = some r →
      isFailure outcome = true → r < 3 →
      (stateDeliver m outcome now).status = MESSAGE_STATUS.RETRY ∧
        (stateDeliver m outcome now).retried = some (r + 1)) ∧
    (∀ (m : MessageModel) (outcome : DeliveryOutcome) (now : Timestamp),
      m.retried = some 3 → isFailure outcome = true →
      (stateDeliver m outcome now).status = MESSAGE_STATUS.DLQ ∧
        (stateDeliver m outcome now).status ≠ MESSAGE_STATUS.RETRY) ∧
    (∀ m : MessageModel, Reachable m → m.status = MESSAGE_STATUS.DLQ →
      m.retried = some 3 ∧ 3 ≤ errsLen m) := by
  refine ⟨?_, ?_, ?_, ?_⟩
  · intro m hm
    obtain ⟨r, hr, hr3, -, -, -⟩ := reachable_stateInv hm
    exact ⟨r, hr, hr3⟩
  · intro m outcome now r _ hr hf hlt
    rw [stateDeliver_failure_eq m outcome now hf]
    unfold stateDeliverFailure
    rw [hr]
    simp [hlt]
  · intro m outcome now hr hf
    rw [stateDeliver_failure_eq m outcome now hf]
    unfold stateDeliverFailure
    rw [hr]
    simp
  · intro m hm hdlq
    obtain ⟨r, hr, -, -, hd, -⟩ := reachable_stateInv hm
    obtain ⟨hr3, hlen⟩ := hd hdlq
    subst hr3
    exact ⟨hr, by omega⟩

/-- Witness for C1: the retry-to-DLQ run instantiates every part — the state
after the second attempt, the transition at `retried = 3`, and the final
`DLQ` state. -/
theorem done_C1_retried_bounded_witness :
    (∃ r, c4final.retried = some r ∧ r ≤ 3) ∧
    ((stateDeliver c4s1 (.response 500) 2).status = MESSAGE_STATUS.RETRY ∧
      (stateDeliver c4s1 (.response 500) 2).retried = some (0 + 1)) ∧
    ((stateDeliver c4s7 (.response 500) 8).status = MESSAGE_STATUS.DLQ ∧
      (stateDeliver c4s7 (.response 500) 8).status ≠ MESSAGE_STATUS.RETRY) ∧
    (c4final.retried = some 3 ∧ 3 ≤ errsLen c4final) :=
  ⟨done_C1_retried_bounded.1 c4final c4final_reachable,
   done_C1_retried_bounded.2.1 c4s1 (.response 500) 2 0 rfl rfl rfl (by omega),
   done_C1_retried_bounded.2.2.1 c4s7 (.response 500) 8 rfl rfl,
   done_C1_retried_bounded.2.2.2 c4final c4final_reachable rfl⟩

/-- Claim C2: exactly HTTP 200 and 201 are classified as success (status
`SENT`, `deliveredAt` stamped); any other response status or thrown error
appends a `{url, status?, message, createdAt}` record to `lastErrors`; and on
reachable states `deliveredAt` is populated exactly when the message has
passed through `SENT` (which is terminal in the state machine). -/
theorem done_C2_delivery_classification :
    (∀ (m : MessageModel) (s : Nat) (now : Timestamp),
      (stateDeliver m (.response s) now).status = MESSAGE_STATUS.SENT ↔
        (s = 200 ∨ s = 201)) ∧
    (∀ (m : MessageModel) (s : Nat) (now : Timestamp), s ≠ 200 → s ≠ 201 →
      (stateDeliver m (.response s) now).lastErrors =
        some (m.lastErrors.getD [] ++
          [{ url := m.payload.url, status := some s,
             message := "invalid response status", createdAt := now }])) ∧
    (∀ (m : MessageModel) (msg : String) (now : Timestamp),
      (stateDeliver m (.thrown msg) now).status ≠ MESSAGE_STATUS.SENT ∧
      (stateDeliver m (.thrown msg) now).lastErrors =
        some (m.lastErrors.getD [] ++
          [{ url := m.payload.url, status := none, message := msg,
             createdAt := now }])) ∧
    (∀ (m : MessageModel) (s : Nat) (now : Timestamp), s = 200 ∨ s = 201 →
      (stateDeliver m (.response s) now).deliveredAt = some now) ∧
    (∀ m : MessageModel, Reachable m →
      (m.deliveredAt.isSome ↔ m.status = MESSAGE_STATUS.SENT)) ∧
    (∀ m m' : MessageModel, m.status = MESSAGE_STATUS.SENT →
      MessageStep m m' → m' = m) := by
  refine ⟨?_, ?_, ?_, ?_, ?_, ?_⟩
  · intro m s now
    by_cases hs : isSuccessStatus s = true
    · simp only [stateDeliver, hs, if_true]
      simpa using (isSuccessStatus_iff s).mp hs
    · have hs' : isSuccessStatus s = false := by simpa using hs
      simp only [stateDeliver, hs', Bool.false_eq_true, if_false]
      rcases stateDeliverFailure_status m
          (deliveryErrorRecord m (.response s) now) now with h | h <;>
        · rw [h]
          simp only [isSuccessStatus_iff] at hs
          simp [hs]
  · intro m s now h200 h201
    have hf : isFailure (DeliveryOutcome.response s) = true := by
      simp [isFailure, isSuccessStatus, h200, h201]
    rw [stateDeliver_failure_eq m _ now hf, stateDeliverFailure_lastErrors]
    rfl
  · intro m msg now
    constructor
    · simp only [stateDeliver]
      rcases stateDeliverFailure_status m
          (deliveryErrorRecord m (.thrown msg) now) now with h | h <;>
        simp [h]
    · simp only [stateDeliver]
      rw [stateDeliverFailure_lastErrors]
      rfl
  · intro m s now hs
    have h : isSuccessStatus s = true := (isSuccessStatus_iff s).mpr hs
    simp [stateDeliver, h]
  · intro m hm
    obtain ⟨-, -, -, -, -, hdel⟩ := reachable_stateInv hm
    exact hdel
  · intro m m' hSent st
    cases st with
    | createdVisit now h => rw [hSent] at h; cases h
    | queuedFire now h => rw [hSent] at h; cases h
    | retryFire now h => rw [hSent] at h; cases h
    | deliverAttempt outcome now h => rw [hSent] at h; cases h
    | sentVisit h => rfl
    | dlqVisit h => rfl

/-- The state after a successful delivery of the run's message, used to
witness the terminality of `SENT`. -/
def cSent : MessageModel := stateDeliver c4s1 (.response 200) 9

/-- Witness for C2: concrete classifications on the run's message, the
reachable final state, and a step out of a `SENT` state. -/
theorem done_C2_delivery_classification_witness :
    ((stateDeliver c4s1 (.response 200) 9).status = MESSAGE_STATUS.SENT ↔
      (200 = 200 ∨ 200 = 201)) ∧
    (stateDeliver c4s1 (.response 500) 2).lastErrors =
      some (c4s1.lastErrors.getD [] ++
        [{ url := c4s1.payload.url, status := some 500,
           message := "invalid response status", createdAt := 2 }]) ∧
    (stateDeliver c4s1 (.thrown "dns failure") 2).status ≠ MESSAGE_STATUS.SENT ∧
    (stateDeliver c4s1 (.response 200) 9).deliveredAt = some 9 ∧
    (c4final.deliveredAt.isSome ↔ c4final.status = MESSAGE_STATUS.SENT) ∧
    cSent = cSent :=
  ⟨done_C2_delivery_classification.1 c4s1 200 9,
   done_C2_delivery_classification.2.1 c4s1 500 2 (by decide) (by decide),
   (done_C2_delivery_classification.2.2.1 c4s1 "dns failure" 2).1,
   done_C2_delivery_classification.2.2.2.1 c4s1 200 9 (Or.inl rfl),
   done_C2_delivery_classification.2.2.2.2.1 c4final c4final_reachable,
   done_C2_delivery_classification.2.2.2.2.2 cSent cSent rfl
     (MessageStep.sentVisit cSent rfl)⟩

/-- A `CREATED` message whose `publishAt` equals the visiting instant. -/
def mC3 : MessageModel :=
  { id := "msg_c3", payload := payloadPlain, publishAt := 1000,
    retried := some 0, status := .CREATED, createdAt := 0, updatedAt := 0 }

/-- Counterexample to claim C3: at `publishAt = now` (here both 1000) the
claim demands a transition to `DELIVER` (`publish_at ≤ now`), but
`stateCreated` uses a strict comparison and writes `QUEUED` instead; the
claim's `QUEUED` condition `publish_at > now` also fails here. -/
theorem done_C3_counterexample :
    mC3.publishAt ≤ 1000 ∧ ¬ 1000 < mC3.publishAt ∧
    stateCreated mC3 1000 = some MESSAGE_STATUS.QUEUED ∧
    stateCreated mC3 1000 ≠ some MESSAGE_STATUS.DELIVER := by
  refine ⟨by decide, by decide, by decide, by decide⟩

/-- Claim C3, amended: a visited `CREATED` message transitions to `DELIVER`
iff `publishAt < now` (strictly); to `QUEUED` iff `now ≤ publishAt` and the
two instants share the calendar day; otherwise no update is written. -/
theorem done_C3_state_created_boundaries :
    ∀ (m : MessageModel) (now : Timestamp),
      (stateCreated m now = some MESSAGE_STATUS.DELIVER ↔ m.publishAt < now) ∧
      (stateCreated m now = some MESSAGE_STATUS.QUEUED ↔
        (now ≤ m.publishAt ∧ getDateOnly now = getDateOnly m.publishAt)) ∧
      (stateCreated m now = none ↔
        (now ≤ m.publishAt ∧ getDateOnly now ≠ getDateOnly m.publishAt)) := by
  intro m now
  by_cases h1 : m.publishAt < now
  · have he : stateCreated m now = some MESSAGE_STATUS.DELIVER := by
      unfold stateCreated
      simp [h1]
    rw [he]
    exact ⟨iff_of_true rfl h1,
      iff_of_false (by decide)
        (by rintro ⟨hle, -⟩; exact absurd hle (Nat.not_le.mpr h1)),
      iff_of_false (by decide)
        (by rintro ⟨hle, -⟩; exact absurd hle (Nat.not_le.mpr h1))⟩
  · by_cases h2 : getDateOnly now = getDateOnly m.publishAt
    · have he : stateCreated m now = some MESSAGE_STATUS.QUEUED := by
        unfold stateCreated
        simp [h1, h2]
      rw [he]
      exact ⟨iff_of_false (by decide) h1,
        iff_of_true rfl ⟨Nat.le_of_not_lt h1, h2⟩,
        iff_of_false (by decide) (by rintro ⟨-, hne⟩; exact hne h2)⟩
    · have he : stateCreated m now = none := by
        unfold stateCreated
        simp [h1, h2]
      rw [he]
      exact ⟨iff_of_false (by decide) h1,
        iff_of_false (by decide) (by rintro ⟨-, heq⟩; exact h2 heq),
        iff_of_true rfl ⟨Nat.le_of_not_lt h1, h2⟩⟩

/-- Counterexample to claim C4: in the retry-to-DLQ run (four failed
attempts with a failure-callback header) the final `lastErrors` has 4
entries — one per failed attempt — not the 3 the claim states. -/
theorem done_C4_counterexample :
    c4final.status = MESSAGE_STATUS.DLQ ∧
    errsLen c4final = 4 ∧ errsLen c4final ≠ 3 := by
  refine ⟨rfl, rfl, by decide⟩

/-- Claim C4, amended: in the retry-to-DLQ run the final status is `DLQ`,
`lastErrors` has 4 entries (initial attempt plus 3 retries, each appending
one record), exactly one POST is issued to the failure-callback URL carrying
the same body as the delivery POST, and no step out of the final state
changes it (in particular a failing callback changes nothing: `stateDLQ`
performs no store write). -/
theorem done_C4_dlq_run :
    c4final.status = MESSAGE_STATUS.DLQ ∧
    c4final.retried = some 3 ∧
    errsLen c4final = 4 ∧
    (stateDLQRequests c4final).length = 1 ∧
    (stateDLQ c4final).map (fun r => r.url) = some "https://fallback.example/f" ∧
    (stateDLQ c4final).map (fun r => r.body) = some c4final.payload.data ∧
    (deliverRequest c4final).body = c4final.payload.data ∧
    (∀ m' : MessageModel, MessageStep c4final m' → m' = c4final) := by
  refine ⟨rfl, rfl, rfl, rfl, rfl, rfl, rfl, ?_⟩
  intro m' st
  cases st with
  | createdVisit now h => cases h
  | queuedFire now h => cases h
  | retryFire now h => cases h
  | deliverAttempt outcome now h => cases h
  | sentVisit h => rfl
  | dlqVisit h => rfl

/-- Witness for C4: the final state's only applicable step (the `DLQ` visit)
leaves it unchanged. -/
theorem done_C4_dlq_run_witness : c4final = c4final :=
  done_C4_dlq_run.2.2.2.2.2.2.2 c4final (MessageStep.dlqVisit c4final rfl)

/-- A `QUEUED` message whose `publishAt` (and `retryAt`) are already past. -/
def mC5 : MessageModel :=
  { id := "msg_c5", payload := payloadPlain, publishAt := 0,
    retryAt := some 0, retried := some 0, status := .QUEUED,
    createdAt := 0, updatedAt := 0 }

/-- Counterexample to claim C5: with `publishAt = 0` and `now = 1000` the
absolute wait is non-positive, yet the delay passed to `kv.enqueue` is the
raw difference `-1000`, not `0`; likewise for `retryAt`. -/
theorem done_C5_counterexample :
    mC5.publishAt ≤ 1000 ∧ stateQueuedDelay mC5 1000 ≠ 0 ∧
    mC5.retryAt = some 0 ∧ stateRetryDelay mC5 1000 ≠ 0 := by
  refine ⟨by decide, by decide, rfl, by decide⟩

/-- Claim C5, amended: the delay passed to the durable queue is the raw
difference `publishAt − now` (resp. `retryAt − now`), negative values
included — it is never clamped to 0; only a missing `retryAt` yields 0. -/
theorem done_C5_delay_passthrough :
    ∀ (m : MessageModel) (now : Timestamp),
      stateQueuedDelay m now = (m.publishAt : Int) - (now : Int) ∧
      (m.publishAt < now → stateQueuedDelay m now < 0) ∧
      (m.retryAt = none → stateRetryDelay m now = 0) ∧
      (∀ r, m.retryAt = some r →
        stateRetryDelay m now = (r : Int) - (now : Int)) ∧
      (∀ r, m.retryAt = some r → r < now → stateRetryDelay m now < 0) := by
  intro m now
  refine ⟨rfl, ?_, ?_, ?_, ?_⟩
  · intro h
    unfold stateQueuedDelay
    zify at h
    omega
  · intro h
    unfold stateRetryDelay
    rw [h]
  · intro r h
    unfold stateRetryDelay
    rw [h]
  · intro r h hlt
    unfold stateRetryDelay
    rw [h]
    show (r : Int) - (now : Int) < 0
    zify at hlt
    omega

/-- Witness for C5: the overdue message `mC5` at `now = 1000` has strictly
negative delays on both paths, and a retry-less variant yields 0. -/
theorem done_C5_delay_passthrough_witness :
    stateQueuedDelay mC5 1000 < 0 ∧
    stateRetryDelay mC5 1000 = ((0 : Nat) : Int) - ((1000 : Nat) : Int) ∧
    stateRetryDelay mC5 1000 < 0 ∧
    stateRetryDelay mC3 1000 = 0 :=
  ⟨(done_C5_delay_passthrough mC5 1000).2.1 (by decide),
   (done_C5_delay_passthrough mC5 1000).2.2.2.1 0 rfl,
   (done_C5_delay_passthrough mC5 1000).2.2.2.2 0 rfl (by decide),
   (done_C5_delay_passthrough mC3 1000).2.2.1 rfl⟩

/-! ### Lemmas about the KV primary rows -/

lemma kvFetch_isSome_any (store : KvMessages) (id : String)
    (h : (kvFetch store id).isSome) :
    store.any (fun p => p.1 == id) = true := by
  unfold kvFetch at h
  cases hf : store.find? (fun p => p.1 == id) with
  | none => rw [hf] at h; simp at h
  | some x =>
      rcases List.find?_isSome.mp (by rw [hf]; rfl) with ⟨y, hy, hpy⟩
      exact List.any_eq_true.mpr ⟨y, hy, hpy⟩

lemma kvFetch_cons_pos (a : String × MessageModel) (rest : KvMessages)
    (id : String) (h : (a.1 == id) = true) :
    kvFetch (a :: rest) id = some a.2 := by
  simp [kvFetch, List.find?_cons, h]

lemma kvFetch_cons_neg (a : String × MessageModel) (rest : KvMessages)
    (id : String) (h : (a.1 == id) = false) :
    kvFetch (a :: rest) id = kvFetch rest id := by
  simp [kvFetch, List.find?_cons, h]

lemma kvFetch_map_replace (store : KvMessages) (id : String) (m : MessageModel)
    (h : (kvFetch store id).isSome) :
    kvFetch (store.map (fun p => if p.1 == id then (id, m) else p)) id =
      some m := by
  induction store with
  | nil => simp [kvFetch] at h
  | cons a rest ih =>
      simp only [List.map_cons]
      by_cases ha : (a.1 == id) = true
      · rw [if_pos ha]
        exact kvFetch_cons_pos (id, m) _ id (by simp)
      · have hf : (a.1 == id) = false := by simpa using ha
        rw [if_neg (by simp [hf]), kvFetch_cons_neg a _ id hf]
        rw [kvFetch_cons_neg a rest id hf] at h
        exact ih h

lemma kvFetch_map_other (store : KvMessages) (id other : String)
    (m : MessageModel) (hne : other ≠ id) :
    kvFetch (store.map (fun p => if p.1 == id then (id, m) else p)) other =
      kvFetch store other := by
  have hIdOth : (id == other) = false := by simpa using Ne.symm hne
  induction store with
  | nil => rfl
  | cons a rest ih =>
      simp only [List.map_cons]
      by_cases ha : (a.1 == id) = true
      · have ha' : a.1 = id := by simpa using ha
        have h2 : (a.1 == other) = false := by rw [ha']; exact hIdOth
        rw [if_pos ha, kvFetch_cons_neg (id, m) _ other hIdOth,
          kvFetch_cons_neg a rest other h2]
        exact ih
      · have hf : (a.1 == id) = false := by simpa using ha
        rw [if_neg (by simp [hf])]
        by_cases hb : (a.1 == other) = true
        · rw [kvFetch_cons_pos a _ other hb, kvFetch_cons_pos a rest other hb]
        · have hb' : (a.1 == other) = false := by simpa using hb
          rw [kvFetch_cons_neg a _ other hb', kvFetch_cons_neg a rest other hb']
          exact ih

lemma kvFetch_kvSet_same (store : KvMessages) (id : String) (m : MessageModel)
    (h : (kvFetch store id).isSome) :
    kvFetch (kvSet store id m) id = some m := by
  unfold kvSet
  rw [if_pos (kvFetch_isSome_any store id h)]
  exact kvFetch_map_replace store id m h

lemma kvFetch_kvSet_other (store : KvMessages) (id other : String)
    (m : MessageModel) (hne : other ≠ id) :
    kvFetch (kvSet store id m) other = kvFetch store other := by
  unfold kvSet
  split
  · exact kvFetch_map_other store id other m hne
  · exact kvFetch_cons_neg (id, m) store other (by simpa using Ne.symm hne)

/-- Claim C6: for every existing id and partial patch, the KV update writes
the merged state (absent patch fields keep their prior value), stamps a fresh
`updatedAt`, leaves every other row untouched, and on a status change
decrements the old status's bucket and increments the new one (all other
buckets unchanged, and no bucket changes without a status change); an unknown
id returns the not-found error and leaves store and stats unchanged. -/
theorem done_C6_update_contract :
    ∀ (store : KvMessages) (stats : StatusStats) (id : String)
      (p : MessagePatch) (now : Timestamp),
      (kvFetch store id = none →
        kvMessagesUpdate store stats id p now =
          { store := store, stats := stats, result := none }) ∧
      (∀ current, kvFetch store id = some current →
        (kvMessagesUpdate store stats id p now).result =
          some (mergePatch current p now) ∧
        (mergePatch current p now).updatedAt = now ∧
        (p.payload = none → (mergePatch current p now).payload = current.payload) ∧
        (p.publishAt = none → (mergePatch current p now).publishAt = current.publishAt) ∧
        (p.deliveredAt = none →
          (mergePatch current p now).deliveredAt = current.deliveredAt) ∧
        (p.retryAt = none → (mergePatch current p now).retryAt = current.retryAt) ∧
        (p.retried = none → (mergePatch current p now).retried = current.retried) ∧
        (p.status = none → (mergePatch current p now).status = current.status) ∧
        (p.lastErrors = none →
          (mergePatch current p now).lastErrors = current.lastErrors) ∧
        kvFetch (kvMessagesUpdate store stats id p now).store id =
          some (mergePatch current p now) ∧
        (∀ other, other ≠ id →
          kvFetch (kvMessagesUpdate store stats id p now).store other =
            kvFetch store other) ∧
        (∀ s, p.status = some s → s ≠ current.status →
          (kvMessagesUpdate store stats id p now).stats current.status =
            stats current.status - 1 ∧
          (kvMessagesUpdate store stats id p now).stats s = stats s + 1 ∧
          (∀ t, t ≠ s → t ≠ current.status →
            (kvMessagesUpdate store stats id p now).stats t = stats t)) ∧
        ((p.status = none ∨ p.status = some current.status) →
          (kvMessagesUpdate store stats id p now).stats = stats)) := by
  intro store stats id p now
  constructor
  · intro hnone
    unfold kvMessagesUpdate
    rw [hnone]
  · intro current hsome
    have hupd : kvMessagesUpdate store stats id p now =
        { store := kvSet store id (mergePatch current p now)
          stats := match p.status with
            | some s =>
                if s ≠ current.status then
                  incrementStatus (decrementStatus stats current.status) s
                else stats
            | none => stats
          result := some (mergePatch current p now) } := by
      unfold kvMessagesUpdate
      rw [hsome]
    refine ⟨by rw [hupd], rfl, ?_, ?_, ?_, ?_, ?_, ?_, ?_, ?_, ?_, ?_, ?_⟩
    · intro hp
      simp [mergePatch, hp]
    · intro hp
      simp [mergePatch, hp]
    · intro hp
      simp [mergePatch, hp]
    · intro hp
      simp [mergePatch, hp]
    · intro hp
      simp [mergePatch, hp]
    · intro hp
      simp [mergePatch, hp]
    · intro hp
      simp [mergePatch, hp]
    · rw [hupd]
      exact kvFetch_kvSet_same store id (mergePatch current p now)
        (by rw [hsome]; rfl)
    · intro other hne
      rw [hupd]
      exact kvFetch_kvSet_other store id other (mergePatch current p now) hne
    · intro s hps hsne
      rw [hupd]
      simp only [hps, hsne, if_pos, ite_not]
      refine ⟨?_, ?_, ?_⟩
      · simp [incrementStatus, decrementStatus, hsne, Ne.symm hsne]
      · simp [incrementStatus, decrementStatus, hsne]
      · intro t hts htc
        simp [incrementStatus, decrementStatus, hts, htc]
    · intro hps
      rw [hupd]
      rcases hps with hps | hps <;> simp [hps]

/-- The stored model used to witness the update contract. -/
def mC6 : MessageModel :=
  { id := "msg_c6", payload := payloadPlain, publishAt := 7,
    retried := some 0, status := .CREATED, createdAt := 1, updatedAt := 1 }

/-- The witness patch: a status change plus a retried bump. -/
def patchC6 : MessagePatch := { status := some .DELIVER, retried := some 1 }

/-- The witness store: a single row under `msg_c6`. -/
def storeC6 : KvMessages := [("msg_c6", mC6)]

/-- The witness stats: every bucket at 5. -/
def statsC6 : StatusStats := fun _ => 5

/-- Witness for C6: updating `msg_c6` with a `DELIVER` status patch merges
the record, preserves the untouched fields, leaves other ids alone, and
moves one count from the `CREATED` bucket to the `DELIVER` bucket. -/
theorem done_C6_update_contract_witness :
    (kvMessagesUpdate storeC6 statsC6 "msg_c6" patchC6 50).result =
      some (mergePatch mC6 patchC6 50) ∧
    (mergePatch mC6 patchC6 50).updatedAt = 50 ∧
    (mergePatch mC6 patchC6 50).payload = mC6.payload ∧
    kvFetch (kvMessagesUpdate storeC6 statsC6 "msg_c6" patchC6 50).store
      "msg_other" = kvFetch storeC6 "msg_other" ∧
    (kvMessagesUpdate storeC6 statsC6 "msg_c6" patchC6 50).stats
      MESSAGE_STATUS.CREATED = statsC6 MESSAGE_STATUS.CREATED - 1 ∧
    (kvMessagesUpdate storeC6 statsC6 "msg_c6" patchC6 50).stats
      MESSAGE_STATUS.DELIVER = statsC6 MESSAGE_STATUS.DELIVER + 1 ∧
    kvMessagesUpdate storeC6 statsC6 "msg_unknown" patchC6 50 =
      { store := storeC6, stats := statsC6, result := none } := by
  have h := (done_C6_update_contract storeC6 statsC6 "msg_c6" patchC6 50).2
    mC6 rfl
  have hstats := h.2.2.2.2.2.2.2.2.2.2.2.1 MESSAGE_STATUS.DELIVER rfl (by decide)
  exact ⟨h.1, h.2.1, h.2.2.1 rfl,
    h.2.2.2.2.2.2.2.2.2.2.1 "msg_other" (by decide),
    hstats.1, hstats.2.1,
    (done_C6_update_contract storeC6 statsC6 "msg_unknown" patchC6 50).1 rfl⟩

/-- A stored message whose `createdAt` order disagrees with its `updatedAt`
order relative to `mB`. -/
def mA : MessageModel :=
  { id := "msg_a", payload := payloadPlain, publishAt := 5,
    retried := some 0, status := .QUEUED, createdAt := 1, updatedAt := 10 }

/-- Created after `mA` but updated before it; same status and publish day. -/
def mB : MessageModel :=
  { id := "msg_b", payload := payloadPlain, publishAt := 3,
    retried := some 0, status := .QUEUED, createdAt := 2, updatedAt := 5 }

/-- A two-row KV store holding `mA` and `mB`. -/
def storeAB : KvMessages := [("msg_a", mA), ("msg_b", mB)]

/-- The secondary-index id list for the two rows. -/
def idsAB : List String := ["msg_a", "msg_b"]

/-- Counterexample to claim C7: on the KV backend, `fetchByStatus` returns
`[mA, mB]` (sorted by `updatedAt` descending), which is NOT ordered by
`createdAt` descending (`mA.createdAt = 1 < 2 = mB.createdAt`); `fetchByDate`
returns the same order, which is NOT ordered by `publishAt` ascending
(`5 > 3`). -/
theorem done_C7_counterexample :
    kvFetchByStatus storeAB idsAB = [mA, mB] ∧
    mA.createdAt < mB.createdAt ∧
    ¬ kvSortedByCreatedAtDesc (kvFetchByStatus storeAB idsAB) ∧
    kvFetchByDate storeAB idsAB = [mA, mB] ∧
    mB.publishAt < mA.publishAt ∧
    ¬ (kvFetchByDate storeAB idsAB).Pairwise
        (fun a b => a.publishAt ≤ b.publishAt) := by
  refine ⟨rfl, by decide, ?_, rfl, by decide, ?_⟩
  · intro hs
    have hs' : List.Pairwise (fun a b : MessageModel => b.createdAt ≤ a.createdAt)
        [mA, mB] := hs
    have h := (List.pairwise_cons.mp hs').1 mB (by simp)
    exact absurd h (by decide)
  · intro hs
    have hs' : List.Pairwise (fun a b : MessageModel => a.publishAt ≤ b.publishAt)
        [mA, mB] := hs
    have h := (List.pairwise_cons.mp hs').1 mB (by simp)
    exact absurd h (by decide)

/-- Claim C7, amended: on the Turso backend `fetchByStatus` returns exactly
the rows with the given status ordered by `created_at` descending and
`fetchByDate` exactly the rows of the UTC publish day ordered by `publish_at`
ascending; on the KV backend both queries return the secondary's rows
ordered by `updated_at` descending instead. -/
theorem done_C7_fetch_ordering :
    (∀ (db : List TursoMessageRow) (status : String),
      sortedByCreatedAtDesc (tursoFetchByStatus db status) ∧
      List.Perm (tursoFetchByStatus db status)
        (db.filter (fun m => m.status == status))) ∧
    (∀ (db : List TursoMessageRow) (date : Timestamp),
      sortedByPublishAtAsc (tursoFetchByDate db date) ∧
      List.Perm (tursoFetchByDate db date)
        (db.filter (fun m => getDateOnly m.publish_at == getDateOnly date))) ∧
    (∀ (store : KvMessages) (ids : List String),
      (fetchMany store ids).Pairwise updatedDescRel ∧
      List.Perm (fetchMany store ids) (ids.filterMap (kvFetch store))) := by
  refine ⟨?_, ?_, ?_⟩
  · intro db status
    exact ⟨List.sorted_insertionSort createdDescRel _,
      List.perm_insertionSort createdDescRel _⟩
  · intro db date
    exact ⟨List.sorted_insertionSort publishAscRel _,
      List.perm_insertionSort publishAscRel _⟩
  · intro store ids
    exact ⟨List.sorted_insertionSort updatedDescRel _,
      List.perm_insertionSort updatedDescRel _⟩

/-- Claim C8: the outbound callback header map always answers the four
system keys with `Done-Message-Id: <id>`, `Done-Status: <status>`,
`Done-Retried: <n>` and `User-Agent: Done Light`, and answers every other
key with the client-supplied forward entry (so forward entries survive but
can never override the four system entries). -/
theorem done_C8_callback_headers :
    (∀ (forward : HeaderMap) (messageId status : String) (retried : Nat),
      buildDefaultCallbackHeaders forward messageId retried status
        "Done-Message-Id" = some messageId ∧
      buildDefaultCallbackHeaders forward messageId retried status
        "Done-Status" = some status ∧
      buildDefaultCallbackHeaders forward messageId retried status
        "Done-Retried" = some (toString retried) ∧
      buildDefaultCallbackHeaders forward messageId retried status
        "User-Agent" = some "Done Light" ∧
      (∀ k, k ≠ "Done-Message-Id" → k ≠ "Done-Status" → k ≠ "Done-Retried" →
        k ≠ "User-Agent" →
        buildDefaultCallbackHeaders forward messageId retried status k =
          forward k)) ∧
    (∀ m : MessageModel,
      (deliverRequest m).headers "Done-Message-Id" = some m.id ∧
      (deliverRequest m).headers "Done-Status" =
        some (statusToString m.status) ∧
      (deliverRequest m).headers "Done-Retried" =
        some (toString (m.retried.getD 0)) ∧
      (deliverRequest m).headers "User-Agent" = some "Done Light" ∧
      (∀ k, k ≠ "Done-Message-Id" → k ≠ "Done-Status" → k ≠ "Done-Retried" →
        k ≠ "User-Agent" →
        (deliverRequest m).headers k = m.payload.headers.forward k)) := by
  constructor
  · intro forward messageId status retried
    refine ⟨rfl, rfl, rfl, rfl, ?_⟩
    intro k h1 h2 h3 h4
    simp [buildDefaultCallbackHeaders, h1, h2, h3, h4]
  · intro m
    refine ⟨rfl, rfl, rfl, rfl, ?_⟩
    intro k h1 h2 h3 h4
    simp [deliverRequest, buildDefaultCallbackHeaders, h1, h2, h3, h4]

/-- A client forward map carrying one custom entry. -/
def forwardC8 : HeaderMap := fun k => if k = "x-custom" then some "1" else none

/-- Witness for C8: the concrete forward map keeps its custom entry and the
four system entries hold their values; likewise for the delivery request of
the retry-run's message. -/
theorem done_C8_callback_headers_witness :
    buildDefaultCallbackHeaders forwardC8 "msg_1" 2 "DELIVER"
      "Done-Message-Id" = some "msg_1" ∧
    buildDefaultCallbackHeaders forwardC8 "msg_1" 2 "DELIVER"
      "x-custom" = forwardC8 "x-custom" ∧
    (deliverRequest c4final).headers "Done-Retried" =
      some (toString ((c4final.retried).getD 0)) ∧
    (deliverRequest c4final).headers "x-custom" =
      c4final.payload.headers.forward "x-custom" :=
  ⟨(done_C8_callback_headers.1 forwardC8 "msg_1" "DELIVER" 2).1,
   (done_C8_callback_headers.1 forwardC8 "msg_1" "DELIVER" 2).2.2.2.2
     "x-custom" (by decide) (by decide) (by decide) (by decide),
   (done_C8_callback_headers.2 c4final).2.2.1,
   (done_C8_callback_headers.2 c4final).2.2.2.2
     "x-custom" (by decide) (by decide) (by decide) (by decide)⟩

/-- A Turso row with a populated `last_errors` column. -/
def rowC9 : TursoMessageRow :=
  { id := "msg_c9", payload := payloadPlain, publish_at := 0,
    delivered_at := none, retry_at := none, retried := 1, status := "RETRY",
    last_errors := some [⟨"https://target.example/hook", some 500,
      "invalid response status", 5⟩],
    created_at := 0, updated_at := 0 }

/-- A patch whose only present field is an empty `last_errors` array. -/
def patchC9 : TursoPatch := { last_errors := some [] }

/-- Counterexample to claim C9: an empty array is truthy in JavaScript, so a
patch carrying `last_errors: []` (a present, 0-length value) IS applied and
changes the stored column — the claim says any 0-length value leaves the
column unchanged. -/
theorem done_C9_counterexample :
    patchC9.last_errors = some [] ∧
    (tursoApplyPatch rowC9 patchC9 99).last_errors = some [] ∧
    (tursoApplyPatch rowC9 patchC9 99).last_errors ≠ rowC9.last_errors := by
  refine ⟨rfl, rfl, ?_⟩
  intro h
  rw [show (tursoApplyPatch rowC9 patchC9 99).last_errors = some [] from rfl] at h
  simp [rowC9] at h

/-- Claim C9, amended: in the Turso update only truthy patch fields are
applied (`retried` excepted, applied whenever it is a number, 0 included):
absent (or `null`/`undefined`) fields and an empty-string `status` leave the
columns unchanged, but a present `last_errors` array is always applied, even
when empty, because arrays are truthy; in all cases the nullable columns
`delivered_at`, `retry_at` and `last_errors` can never be cleared back to
`NULL` by an update. -/
theorem done_C9_turso_patch_truthiness :
    ∀ (row : TursoMessageRow) (p : TursoPatch) (now : Timestamp),
      (p.payload = none → (tursoApplyPatch row p now).payload = row.payload) ∧
      (p.publish_at = none →
        (tursoApplyPatch row p now).publish_at = row.publish_at) ∧
      (p.delivered_at = none →
        (tursoApplyPatch row p now).delivered_at = row.delivered_at) ∧
      (p.retry_at = none →
        (tursoApplyPatch row p now).retry_at = row.retry_at) ∧
      (p.retried = none → (tursoApplyPatch row p now).retried = row.retried) ∧
      (∀ n, p.retried = some n → (tursoApplyPatch row p now).retried = n) ∧
      (p.status = none ∨ p.status = some "" →
        (tursoApplyPatch row p now).status = row.status) ∧
      (∀ s, p.status = some s → s ≠ "" →
        (tursoApplyPatch row p now).status = s) ∧
      (p.last_errors = none →
        (tursoApplyPatch row p now).last_errors = row.last_errors) ∧
      (∀ l, p.last_errors = some l →
        (tursoApplyPatch row p now).last_errors = some l) ∧
      ((tursoApplyPatch row p now).delivered_at = none →
        row.delivered_at = none) ∧
      ((tursoApplyPatch row p now).retry_at = none → row.retry_at = none) ∧
      ((tursoApplyPatch row p now).last_errors = none →
        row.last_errors = none) := by
  intro row p now
  refine ⟨?_, ?_, ?_, ?_, ?_, ?_, ?_, ?_, ?_, ?_, ?_, ?_, ?_⟩
  · intro hp
    simp [tursoApplyPatch, hp]
  · intro hp
    simp [tursoApplyPatch, hp]
  · intro hp
    simp [tursoApplyPatch, hp]
  · intro hp
    simp [tursoApplyPatch, hp]
  · intro hp
    simp [tursoApplyPatch, hp]
  · intro n hp
    simp [tursoApplyPatch, hp]
  · rintro (hp | hp) <;> simp [tursoApplyPatch, hp]
  · intro s hp hs
    simp [tursoApplyPatch, hp, hs]
  · intro hp
    simp [tursoApplyPatch, hp]
  · intro l hp
    simp [tursoApplyPatch, hp]
  · intro h
    cases hp : p.delivered_at with
    | none => simpa [tursoApplyPatch, hp] using h
    | some d => simp [tursoApplyPatch, hp] at h
  · intro h
    cases hp : p.retry_at with
    | none => simpa [tursoApplyPatch, hp] using h
    | some d => simp [tursoApplyPatch, hp] at h
  · intro h
    cases hp : p.last_errors with
    | none => simpa [tursoApplyPatch, hp] using h
    | some l => simp [tursoApplyPatch, hp] at h

/-- Witness for C9: on the concrete row, an absent `status`-like falsy value,
a `retried` of 0 and the empty `last_errors` array behave as amended. -/
theorem done_C9_turso_patch_truthiness_witness :
    (tursoApplyPatch rowC9 patchC9 99).payload = rowC9.payload ∧
    (tursoApplyPatch rowC9 patchC9 99).status = rowC9.status ∧
    (tursoApplyPatch rowC9 { status := some "" } 99).status = rowC9.status ∧
    (tursoApplyPatch rowC9 { status := some "DLQ" } 99).status = "DLQ" ∧
    (tursoApplyPatch rowC9 { retried := some 0 } 99).retried = 0 ∧
    (tursoApplyPatch rowC9 patchC9 99).last_errors = some [] ∧
    (rowC9.last_errors = none) = (rowC9.last_errors = none) :=
  ⟨(done_C9_turso_patch_truthiness rowC9 patchC9 99).1 rfl,
   (done_C9_turso_patch_truthiness rowC9 patchC9 99).2.2.2.2.2.2.1
     (Or.inl rfl),
   (done_C9_turso_patch_truthiness rowC9 { status := some "" } 99).2.2.2.2.2.2.1
     (Or.inr rfl),
   (done_C9_turso_patch_truthiness rowC9 { status := some "DLQ" } 99).2.2.2.2.2.2.2.1
     "DLQ" rfl (by decide),
   (done_C9_turso_patch_truthiness rowC9 { retried := some 0 } 99).2.2.2.2.2.1
     0 rfl,
   (done_C9_turso_patch_truthiness rowC9 patchC9 99).2.2.2.2.2.2.2.2.2.1
     [] rfl,
   rfl⟩

/-- Claim C10: for every relative-delay string whose final character is not
one of `s`, `m`, `h`, `d`, `Http.delayHandleRelative` falls through the
switch's default branch and returns a `delayDate` equal to `nowDate` — the
malformed delay is silently treated as zero delay rather than rejected. -/
theorem done_C10_malformed_delay :
    ∀ (delay : String) (now : Timestamp),
      delay.takeRight 1 ≠ "s" → delay.takeRight 1 ≠ "m" →
      delay.takeRight 1 ≠ "h" → delay.takeRight 1 ≠ "d" →
      delayHandleRelativeDate delay now = some (now : Int) := by
  intro delay now h1 h2 h3 h4
  unfold delayHandleRelativeDate
  simp [h1, h2, h3, h4]

/-- Witness for C10: the malformed delay `"5x"` at `now = 100` yields a
`delayDate` equal to `nowDate`. -/
theorem done_C10_malformed_delay_witness :
    delayHandleRelativeDate "5x" 100 = some ((100 : Nat) : Int) :=
  done_C10_malformed_delay "5x" 100 (by decide) (by decide) (by decide)
    (by decide)

end Done
